import Mathlib

/-
Verification of the posture-analysis core of posture-guard
(src/backend/src/python/posture_analyzer.py), shallowly embedded over ℝ.
Landmark coordinates are real numbers; the MediaPipe PoseLandmark indices
used by the code are fixed natural-number constants.
-/

namespace PostureGuard

/-- A 2-D point, the [x, y] pairs the Python code extracts from a landmark. -/
structure Pt where
  x : ℝ
  y : ℝ

/-- A landmark set: the indexed sequence `landmarks` of the Python code,
mapping a MediaPipe pose-landmark index to its point. -/
def Landmarks : Type := Nat → Pt

/- MediaPipe PoseLandmark indices (mp.solutions.pose.PoseLandmark.*.value). -/

def NOSE : Nat := 0
def LEFT_EAR : Nat := 7
def RIGHT_EAR : Nat := 8
def LEFT_SHOULDER : Nat := 11
def RIGHT_SHOULDER : Nat := 12
def LEFT_HIP : Nat := 23
def RIGHT_HIP : Nat := 24
def LEFT_KNEE : Nat := 25
def RIGHT_KNEE : Nat := 26
def LEFT_ANKLE : Nat := 27
def RIGHT_ANKLE : Nat := 28
def LEFT_FOOT_INDEX : Nat := 31
def RIGHT_FOOT_INDEX : Nat := 32

/-- Componentwise difference `a - b` of two points (numpy array subtraction). -/
def sub (a b : Pt) : Pt := ⟨a.x - b.x, a.y - b.y⟩

/-- Dot product of two 2-D vectors (np.dot). -/
def dot (u v : Pt) : ℝ := u.x * v.x + u.y * v.y

/-- Euclidean norm of a 2-D vector (np.linalg.norm). -/
noncomputable def vnorm (u : Pt) : ℝ := Real.sqrt (u.x ^ 2 + u.y ^ 2)

/-- np.clip(x, -1.0, 1.0). -/
def clip (x : ℝ) : ℝ := min (max x (-1)) 1

/-- np.degrees: radians to degrees. -/
noncomputable def degrees (x : ℝ) : ℝ := x * 180 / Real.pi

/-- PostureAnalyzer.calculate_angle: the angle at vertex b formed by rays
b→a and b→c, via the clamped cosine and arccos, in degrees. -/
noncomputable def calculate_angle (a b c : Pt) : ℝ :=
  degrees (Real.arccos (clip (dot (sub a b) (sub c b) / (vnorm (sub a b) * vnorm (sub c b)))))

/-- PostureAnalyzer.detect_facing_direction. -/
noncomputable def detect_facing_direction (landmarks : Landmarks) : String :=
  if (landmarks NOSE).x > (landmarks RIGHT_SHOULDER).x ∨
     (landmarks NOSE).x > (landmarks LEFT_SHOULDER).x then "right" else "left"

/-- The five joints the squat evaluator reads after its side-selection branch. -/
structure SquatJoints where
  hip : Pt
  knee : Pt
  ankle : Pt
  toe : Pt
  shoulder : Pt

/-- The side-selection branch of analyze_squat_posture: the left-side joints
when facing = "left", the right-side joints otherwise. -/
def squatJoints (landmarks : Landmarks) (facing : String) : SquatJoints :=
  if facing = "left" then
    { hip := landmarks LEFT_HIP, knee := landmarks LEFT_KNEE,
      ankle := landmarks LEFT_ANKLE, toe := landmarks LEFT_FOOT_INDEX,
      shoulder := landmarks LEFT_SHOULDER }
  else
    { hip := landmarks RIGHT_HIP, knee := landmarks RIGHT_KNEE,
      ankle := landmarks RIGHT_ANKLE, toe := landmarks RIGHT_FOOT_INDEX,
      shoulder := landmarks RIGHT_SHOULDER }

/-- The four joints the sitting evaluator reads after its side-selection branch. -/
structure SittingJoints where
  ear : Pt
  shoulder : Pt
  hip : Pt
  knee : Pt

/-- The side-selection branch of analyze_sitting_posture. -/
def sittingJoints (landmarks : Landmarks) (facing : String) : SittingJoints :=
  if facing = "left" then
    { ear := landmarks LEFT_EAR, shoulder := landmarks LEFT_SHOULDER,
      hip := landmarks LEFT_HIP, knee := landmarks LEFT_KNEE }
  else
    { ear := landmarks RIGHT_EAR, shoulder := landmarks RIGHT_SHOULDER,
      hip := landmarks RIGHT_HIP, knee := landmarks RIGHT_KNEE }

/-- Round-half-to-even to an integer, the tie-breaking used by Python round. -/
noncomputable def roundHalfEven (x : ℝ) : ℤ :=
  if Int.fract x < 1 / 2 then Int.floor x
  else if 1 / 2 < Int.fract x then Int.floor x + 1
  else if 2 ∣ Int.floor x then Int.floor x else Int.floor x + 1

/-- round(x, 1): round to one decimal place. -/
noncomputable def round1 (x : ℝ) : ℝ := (roundHalfEven (x * 10) : ℝ) / 10

/-- The dictionary returned by both evaluators (minus the timestamp and
postureType keys added later by the video/image drivers). -/
structure EvaluationResult where
  isGoodPosture : Bool
  feedback : String
  angles : List (String × ℝ)
  warnings : List String

/-- Body of analyze_squat_posture after side selection: angle computation and
the three sequential warning rules, threading (warnings, is_good_posture). -/
noncomputable def squatEvalCore (j : SquatJoints) (facing : String) : EvaluationResult :=
  let knee_angle := calculate_angle j.hip j.knee j.ankle
  let back_angle := calculate_angle j.shoulder j.hip j.knee
  let s0 : List String × Bool := ([], true)
  let s1 : List String × Bool :=
    if (facing = "right" ∧ j.knee.x > j.toe.x) ∨ (facing = "left" ∧ j.knee.x < j.toe.x) then
      (s0.1 ++ ["Knee extends beyond toe - risk of injury"], false)
    else s0
  let s2 : List String × Bool :=
    if ¬ (30 ≤ back_angle ∧ back_angle ≤ 60) then
      (s1.1 ++
        ["Back angle too upright or too low - maintain natural forward lean (30° to 60° wrt thigh)"],
        false)
    else s1
  let s3 : List String × Bool :=
    if ¬ (80 ≤ knee_angle ∧ knee_angle ≤ 120) then
      (s2.1 ++ ["Squat depth needs improvement - aim for 90-degree knee bend (80° to 120°)"], false)
    else s2
  { isGoodPosture := s3.2,
    feedback := if s3.2 then "Good squat form" else "Adjust your squat form",
    angles := [("knee", round1 knee_angle), ("back", round1 back_angle)],
    warnings := s3.1 }

/-- PostureAnalyzer.analyze_squat_posture. -/
noncomputable def analyze_squat_posture (landmarks : Landmarks) (facing : String) :
    EvaluationResult :=
  squatEvalCore (squatJoints landmarks facing) facing

/-- Body of analyze_sitting_posture after side selection: the proxy neck
metric, the back angle, and the two sequential warning rules. -/
noncomputable def sittingEvalCore (j : SittingJoints) : EvaluationResult :=
  let neck_angle := |j.ear.x - j.shoulder.x| * 100
  let back_angle := calculate_angle j.shoulder j.hip j.knee
  let s0 : List String × Bool := ([], true)
  let s1 : List String × Bool :=
    if neck_angle > 10 then
      (s0.1 ++ ["Adjust head posture - align ears over shoulders (20° max)"], false)
    else s0
  let s2 : List String × Bool :=
    if ¬ (80 ≤ back_angle ∧ back_angle ≤ 115) then
      (s1.1 ++ ["Back not straight - maintain neutral spine (80° to 115°)"], false)
    else s1
  { isGoodPosture := s2.2,
    feedback := if s2.2 then "Good sitting posture" else "Adjust your sitting position",
    angles := [("neck", round1 neck_angle), ("back", round1 back_angle)],
    warnings := s2.1 }

/-- PostureAnalyzer.analyze_sitting_posture. -/
noncomputable def analyze_sitting_posture (landmarks : Landmarks) (facing : String) :
    EvaluationResult :=
  sittingEvalCore (sittingJoints landmarks facing)

/-! Theorems -/

/-- Claim C7: the angle at vertex b is symmetric in the order of the two ray
endpoints: calculate_angle a b c = calculate_angle c b a for all points. -/
theorem calculate_angle_symm (a b c : Pt) :
    calculate_angle a b c = calculate_angle c b a := by
  unfold calculate_angle
  have hdot : dot (sub a b) (sub c b) = dot (sub c b) (sub a b) := by
    unfold dot
    ring
  rw [hdot, mul_comm (vnorm (sub a b)) (vnorm (sub c b))]

/-- Claim C4: the facing classifier is total, returning exactly one of
"left" and "right"; it returns "right" iff the nose x-coordinate exceeds the
right shoulder x or the left shoulder x, and "left" otherwise. -/
theorem detect_facing_direction_spec (landmarks : Landmarks) :
    (detect_facing_direction landmarks = "right" ∨
      detect_facing_direction landmarks = "left") ∧
    ¬ (detect_facing_direction landmarks = "right" ∧
      detect_facing_direction landmarks = "left") ∧
    (detect_facing_direction landmarks = "right" ↔
      ((landmarks NOSE).x > (landmarks RIGHT_SHOULDER).x ∨
       (landmarks NOSE).x > (landmarks LEFT_SHOULDER).x)) ∧
    (detect_facing_direction landmarks = "left" ↔
      ¬ ((landmarks NOSE).x > (landmarks RIGHT_SHOULDER).x ∨
         (landmarks NOSE).x > (landmarks LEFT_SHOULDER).x)) := by
  unfold detect_facing_direction
  split_ifs with h <;> simp_all

/-- Claim C5: with facing "left" both evaluators select exactly the LEFT_*
landmarks and with facing "right" the RIGHT_* equivalents, and each evaluator
is the common rule core applied to the selected side's points. -/
theorem side_selection_spec (landmarks : Landmarks) :
    squatJoints landmarks "left" =
      ⟨landmarks LEFT_HIP, landmarks LEFT_KNEE, landmarks LEFT_ANKLE,
        landmarks LEFT_FOOT_INDEX, landmarks LEFT_SHOULDER⟩ ∧
    squatJoints landmarks "right" =
      ⟨landmarks RIGHT_HIP, landmarks RIGHT_KNEE, landmarks RIGHT_ANKLE,
        landmarks RIGHT_FOOT_INDEX, landmarks RIGHT_SHOULDER⟩ ∧
    sittingJoints landmarks "left" =
      ⟨landmarks LEFT_EAR, landmarks LEFT_SHOULDER, landmarks LEFT_HIP,
        landmarks LEFT_KNEE⟩ ∧
    sittingJoints landmarks "right" =
      ⟨landmarks RIGHT_EAR, landmarks RIGHT_SHOULDER, landmarks RIGHT_HIP,
        landmarks RIGHT_KNEE⟩ ∧
    (∀ facing, analyze_squat_posture landmarks facing =
      squatEvalCore (squatJoints landmarks facing) facing) ∧
    (∀ facing, analyze_sitting_posture landmarks facing =
      sittingEvalCore (sittingJoints landmarks facing)) := by
  refine ⟨?_, ?_, ?_, ?_, fun _ => rfl, fun _ => rfl⟩ <;> simp [squatJoints, sittingJoints]

/-- Claim C10: any facing value other than the exact string "left" — including
values outside the left/right enum — takes the else branch of the side
selection in both evaluators, silently selecting the RIGHT_* landmarks, and
the sitting evaluation coincides with the facing = "right" evaluation. -/
theorem non_left_facing_selects_right (landmarks : Landmarks) (facing : String)
    (h : facing ≠ "left") :
    squatJoints landmarks facing =
      ⟨landmarks RIGHT_HIP, landmarks RIGHT_KNEE, landmarks RIGHT_ANKLE,
        landmarks RIGHT_FOOT_INDEX, landmarks RIGHT_SHOULDER⟩ ∧
    sittingJoints landmarks facing =
      ⟨landmarks RIGHT_EAR, landmarks RIGHT_SHOULDER, landmarks RIGHT_HIP,
        landmarks RIGHT_KNEE⟩ ∧
    analyze_sitting_posture landmarks facing =
      analyze_sitting_posture landmarks "right" := by
  refine ⟨?_, ?_, ?_⟩ <;> simp [squatJoints, sittingJoints, analyze_sitting_posture, h]

/-- Claim C1: the squat evaluator applies exactly its three independent rules:
the knee-over-toe warning appears iff (facing = "right" and knee.x > toe.x) or
(facing = "left" and knee.x < toe.x); the back warning iff the back angle
(shoulder, hip, knee) leaves [30, 60]; the depth warning iff the knee angle
(hip, knee, ankle) leaves [80, 120]; every other warning is one of these;
isGoodPosture is true iff no rule fires and feedback matches it. -/
theorem squat_rules_characterization (landmarks : Landmarks) (facing : String) :
    ("Knee extends beyond toe - risk of injury" ∈
        (analyze_squat_posture landmarks facing).warnings ↔
      ((facing = "right" ∧ (squatJoints landmarks facing).knee.x >
          (squatJoints landmarks facing).toe.x) ∨
       (facing = "left" ∧ (squatJoints landmarks facing).knee.x <
          (squatJoints landmarks facing).toe.x))) ∧
    ("Back angle too upright or too low - maintain natural forward lean (30° to 60° wrt thigh)" ∈
        (analyze_squat_posture landmarks facing).warnings ↔
      ¬ (30 ≤ calculate_angle (squatJoints landmarks facing).shoulder
            (squatJoints landmarks facing).hip (squatJoints landmarks facing).knee ∧
          calculate_angle (squatJoints landmarks facing).shoulder
            (squatJoints landmarks facing).hip (squatJoints landmarks facing).knee ≤ 60)) ∧
    ("Squat depth needs improvement - aim for 90-degree knee bend (80° to 120°)" ∈
        (analyze_squat_posture landmarks facing).warnings ↔
      ¬ (80 ≤ calculate_angle (squatJoints landmarks facing).hip
            (squatJoints landmarks facing).knee (squatJoints landmarks facing).ankle ∧
          calculate_angle (squatJoints landmarks facing).hip
            (squatJoints landmarks facing).knee (squatJoints landmarks facing).ankle ≤ 120)) ∧
    ((analyze_squat_posture landmarks facing).warnings = [] ↔
      ¬ ((facing = "right" ∧ (squatJoints landmarks facing).knee.x >
            (squatJoints landmarks facing).toe.x) ∨
         (facing = "left" ∧ (squatJoints landmarks facing).knee.x <
            (squatJoints landmarks facing).toe.x)) ∧
      (30 ≤ calculate_angle (squatJoints landmarks facing).shoulder
          (squatJoints landmarks facing).hip (squatJoints landmarks facing).knee ∧
        calculate_angle (squatJoints landmarks facing).shoulder
          (squatJoints landmarks facing).hip (squatJoints landmarks facing).knee ≤ 60) ∧
      (80 ≤ calculate_angle (squatJoints landmarks facing).hip
          (squatJoints landmarks facing).knee (squatJoints landmarks facing).ankle ∧
        calculate_angle (squatJoints landmarks facing).hip
          (squatJoints landmarks facing).knee (squatJoints landmarks facing).ankle ≤ 120)) ∧
    ((analyze_squat_posture landmarks facing).isGoodPosture = true ↔
      (analyze_squat_posture landmarks facing).warnings = []) ∧
    ((analyze_squat_posture landmarks facing).feedback =
      if (analyze_squat_posture landmarks facing).warnings = [] then "Good squat form"
      else "Adjust your squat form") := by
  simp only [analyze_squat_posture, squatEvalCore]
  by_cases h1 : (facing = "right" ∧ (squatJoints landmarks facing).knee.x >
      (squatJoints landmarks facing).toe.x) ∨
    (facing = "left" ∧ (squatJoints landmarks facing).knee.x <
      (squatJoints landmarks facing).toe.x) <;>
  by_cases h2 : 30 ≤ calculate_angle (squatJoints landmarks facing).shoulder
      (squatJoints landmarks facing).hip (squatJoints landmarks facing).knee ∧
    calculate_angle (squatJoints landmarks facing).shoulder
      (squatJoints landmarks facing).hip (squatJoints landmarks facing).knee ≤ 60 <;>
  by_cases h3 : 80 ≤ calculate_angle (squatJoints landmarks facing).hip
      (squatJoints landmarks facing).knee (squatJoints landmarks facing).ankle ∧
    calculate_angle (squatJoints landmarks facing).hip
      (squatJoints landmarks facing).knee (squatJoints landmarks facing).ankle ≤ 120 <;>
  simp [h1, h2, h3]

/-- Claim C2: the sitting evaluator appends the head-posture warning iff the
proxy metric |ear.x - shoulder.x| * 100 exceeds the constant 10, and the
neutral-spine warning iff the back angle (shoulder, hip, knee) leaves
[80, 115]; isGoodPosture is true iff no rule fires. -/
theorem sitting_rules_characterization (landmarks : Landmarks) (facing : String) :
    ("Adjust head posture - align ears over shoulders (20° max)" ∈
        (analyze_sitting_posture landmarks facing).warnings ↔
      |(sittingJoints landmarks facing).ear.x -
          (sittingJoints landmarks facing).shoulder.x| * 100 > 10) ∧
    ("Back not straight - maintain neutral spine (80° to 115°)" ∈
        (analyze_sitting_posture landmarks facing).warnings ↔
      ¬ (80 ≤ calculate_angle (sittingJoints landmarks facing).shoulder
            (sittingJoints landmarks facing).hip (sittingJoints landmarks facing).knee ∧
          calculate_angle (sittingJoints landmarks facing).shoulder
            (sittingJoints landmarks facing).hip (sittingJoints landmarks facing).knee ≤ 115)) ∧
    ((analyze_sitting_posture landmarks facing).warnings = [] ↔
      ¬ (|(sittingJoints landmarks facing).ear.x -
            (sittingJoints landmarks facing).shoulder.x| * 100 > 10) ∧
      (80 ≤ calculate_angle (sittingJoints landmarks facing).shoulder
          (sittingJoints landmarks facing).hip (sittingJoints landmarks facing).knee ∧
        calculate_angle (sittingJoints landmarks facing).shoulder
          (sittingJoints landmarks facing).hip (sittingJoints landmarks facing).knee ≤ 115)) ∧
    ((analyze_sitting_posture landmarks facing).isGoodPosture = true ↔
      (analyze_sitting_posture landmarks facing).warnings = []) := by
  simp only [analyze_sitting_posture, sittingEvalCore]
  by_cases h1 : |(sittingJoints landmarks facing).ear.x -
      (sittingJoints landmarks facing).shoulder.x| * 100 > 10 <;>
  by_cases h2 : 80 ≤ calculate_angle (sittingJoints landmarks facing).shoulder
      (sittingJoints landmarks facing).hip (sittingJoints landmarks facing).knee ∧
    calculate_angle (sittingJoints landmarks facing).shoulder
      (sittingJoints landmarks facing).hip (sittingJoints landmarks facing).knee ≤ 115 <;>
  simp [h1, h2]

/-- Claim C3: for every EvaluationResult produced by either evaluator, on any
landmark set and facing, the warnings list is empty iff isGoodPosture. -/
theorem warnings_empty_iff_good (landmarks : Landmarks) (facing : String) :
    ((analyze_squat_posture landmarks facing).warnings = [] ↔
      (analyze_squat_posture landmarks facing).isGoodPosture = true) ∧
    ((analyze_sitting_posture landmarks facing).warnings = [] ↔
      (analyze_sitting_posture landmarks facing).isGoodPosture = true) := by
  constructor
  · simp only [analyze_squat_posture, squatEvalCore]
    split_ifs <;> simp
  · simp only [analyze_sitting_posture, sittingEvalCore]
    split_ifs <;> simp

/-- The arccos of anything, converted to degrees, lies in [0, 180]. -/
lemma degrees_arccos_mem (x : ℝ) :
    0 ≤ degrees (Real.arccos x) ∧ degrees (Real.arccos x) ≤ 180 := by
  unfold degrees
  have hl := Real.arccos_nonneg x
  have hu := Real.arccos_le_pi x
  have hpi := Real.pi_pos
  constructor
  · exact div_nonneg (by nlinarith) (le_of_lt hpi)
  · rw [div_le_iff₀ hpi]
    nlinarith

/-- Claim C6: on non-degenerate input (both vectors of non-zero length),
calculate_angle is the degree arccos of the clamped cosine ratio, and its
value lies in [0, 180]. -/
theorem calculate_angle_spec (a b c : Pt)
    (h1 : vnorm (sub a b) ≠ 0) (h2 : vnorm (sub c b) ≠ 0) :
    calculate_angle a b c =
      degrees (Real.arccos (clip
        (dot (sub a b) (sub c b) / (vnorm (sub a b) * vnorm (sub c b))))) ∧
    0 ≤ calculate_angle a b c ∧ calculate_angle a b c ≤ 180 :=
  ⟨rfl, degrees_arccos_mem _⟩

/-- Witness for claim C6 at a = (1,0), b = (0,0), c = (0,1). -/
theorem calculate_angle_spec_witness :
    0 ≤ calculate_angle ⟨1, 0⟩ ⟨0, 0⟩ ⟨0, 1⟩ ∧
    calculate_angle ⟨1, 0⟩ ⟨0, 0⟩ ⟨0, 1⟩ ≤ 180 := by
  have e1 : vnorm (sub ⟨1, 0⟩ ⟨0, 0⟩) = 1 := by
    show Real.sqrt (((1:ℝ) - 0) ^ 2 + ((0:ℝ) - 0) ^ 2) = 1
    rw [show ((1:ℝ) - 0) ^ 2 + ((0:ℝ) - 0) ^ 2 = 1 by norm_num]
    exact Real.sqrt_one
  have e2 : vnorm (sub ⟨0, 1⟩ ⟨0, 0⟩) = 1 := by
    show Real.sqrt (((0:ℝ) - 0) ^ 2 + ((1:ℝ) - 0) ^ 2) = 1
    rw [show ((0:ℝ) - 0) ^ 2 + ((1:ℝ) - 0) ^ 2 = 1 by norm_num]
    exact Real.sqrt_one
  have h := calculate_angle_spec ⟨1, 0⟩ ⟨0, 0⟩ ⟨0, 1⟩
    (by rw [e1]; exact one_ne_zero) (by rw [e2]; exact one_ne_zero)
  exact ⟨h.2.1, h.2.2⟩

/-- A concrete landmark set realising the squat test scenario of the spec:
left shoulder (0.5, 0.3), left hip (0.5, 0.5), left knee (0.5, 0.65),
left ankle (0.5, 0.85), left foot index (0.45, 0.85). -/
def exLm : Landmarks := fun i =>
  if i = LEFT_SHOULDER then ⟨0.5, 0.3⟩
  else if i = LEFT_HIP then ⟨0.5, 0.5⟩
  else if i = LEFT_KNEE then ⟨0.5, 0.65⟩
  else if i = LEFT_ANKLE then ⟨0.5, 0.85⟩
  else if i = LEFT_FOOT_INDEX then ⟨0.45, 0.85⟩
  else ⟨0, 0⟩

/-- When the cosine ratio is exactly -1, calculate_angle returns 180. -/
lemma calculate_angle_of_ratio_neg_one (a b c : Pt)
    (h : dot (sub a b) (sub c b) / (vnorm (sub a b) * vnorm (sub c b)) = -1) :
    calculate_angle a b c = 180 := by
  unfold calculate_angle
  rw [h]
  have hclip : clip (-1) = -1 := by
    unfold clip
    norm_num
  rw [hclip, Real.arccos_neg_one]
  unfold degrees
  field_simp

/-- Witness for claim C10 at the out-of-enum facing value "up". -/
theorem non_left_facing_selects_right_witness :
    squatJoints exLm "up" =
      ⟨exLm RIGHT_HIP, exLm RIGHT_KNEE, exLm RIGHT_ANKLE,
        exLm RIGHT_FOOT_INDEX, exLm RIGHT_SHOULDER⟩ ∧
    sittingJoints exLm "up" =
      ⟨exLm RIGHT_EAR, exLm RIGHT_SHOULDER, exLm RIGHT_HIP, exLm RIGHT_KNEE⟩ ∧
    analyze_sitting_posture exLm "up" = analyze_sitting_posture exLm "right" :=
  non_left_facing_selects_right exLm "up" (by decide)

/-- Claim C8: on the spec scenario with facing "left", the knee angle at
(hip, knee, ankle) is exactly 180 degrees (collinear points), outside
[80, 120], so the result is not good posture and carries the squat-depth
warning. -/
theorem squat_depth_scenario :
    calculate_angle ⟨0.5, 0.5⟩ ⟨0.5, 0.65⟩ ⟨0.5, 0.85⟩ = 180 ∧
    (analyze_squat_posture exLm "left").isGoodPosture = false ∧
    "Squat depth needs improvement - aim for 90-degree knee bend (80° to 120°)" ∈
      (analyze_squat_posture exLm "left").warnings := by
  have hknee : calculate_angle ⟨0.5, 0.5⟩ ⟨0.5, 0.65⟩ ⟨0.5, 0.85⟩ = 180 := by
    apply calculate_angle_of_ratio_neg_one
    have n1 : vnorm (sub ⟨0.5, 0.5⟩ ⟨0.5, 0.65⟩) = 0.15 := by
      show Real.sqrt (((0.5:ℝ) - 0.5) ^ 2 + ((0.5:ℝ) - 0.65) ^ 2) = 0.15
      rw [show ((0.5:ℝ) - 0.5) ^ 2 + ((0.5:ℝ) - 0.65) ^ 2 = 0.15 ^ 2 by norm_num]
      exact Real.sqrt_sq (by norm_num)
    have n2 : vnorm (sub ⟨0.5, 0.85⟩ ⟨0.5, 0.65⟩) = 0.2 := by
      show Real.sqrt (((0.5:ℝ) - 0.5) ^ 2 + ((0.85:ℝ) - 0.65) ^ 2) = 0.2
      rw [show ((0.5:ℝ) - 0.5) ^ 2 + ((0.85:ℝ) - 0.65) ^ 2 = 0.2 ^ 2 by norm_num]
      exact Real.sqrt_sq (by norm_num)
    rw [n1, n2]
    unfold dot sub
    norm_num
  have hback : calculate_angle ⟨0.5, 0.3⟩ ⟨0.5, 0.5⟩ ⟨0.5, 0.65⟩ = 180 := by
    apply calculate_angle_of_ratio_neg_one
    have n1 : vnorm (sub ⟨0.5, 0.3⟩ ⟨0.5, 0.5⟩) = 0.2 := by
      show Real.sqrt (((0.5:ℝ) - 0.5) ^ 2 + ((0.3:ℝ) - 0.5) ^ 2) = 0.2
      rw [show ((0.5:ℝ) - 0.5) ^ 2 + ((0.3:ℝ) - 0.5) ^ 2 = 0.2 ^ 2 by norm_num]
      exact Real.sqrt_sq (by norm_num)
    have n2 : vnorm (sub ⟨0.5, 0.65⟩ ⟨0.5, 0.5⟩) = 0.15 := by
      show Real.sqrt (((0.5:ℝ) - 0.5) ^ 2 + ((0.65:ℝ) - 0.5) ^ 2) = 0.15
      rw [show ((0.5:ℝ) - 0.5) ^ 2 + ((0.65:ℝ) - 0.5) ^ 2 = 0.15 ^ 2 by norm_num]
      exact Real.sqrt_sq (by norm_num)
    rw [n1, n2]
    unfold dot sub
    norm_num
  have hJ : squatJoints exLm "left" =
      ⟨⟨0.5, 0.5⟩, ⟨0.5, 0.65⟩, ⟨0.5, 0.85⟩, ⟨0.45, 0.85⟩, ⟨0.5, 0.3⟩⟩ := by
    simp [squatJoints, exLm, LEFT_HIP, LEFT_KNEE, LEFT_ANKLE, LEFT_FOOT_INDEX, LEFT_SHOULDER]
  refine ⟨hknee, ?_, ?_⟩ <;>
    simp [analyze_squat_posture, squatEvalCore, hJ, hknee, hback] <;>
    norm_num

end PostureGuard
